import Mathlib

/-!
# SalesMate_V2 — verification of spec claims against the chat client

Shallow embedding of the chat client found under `src/frontend/src/lib`
(`ChatProvider` in the chat context module, `chatAPI` in `api/chat.ts`,
`validateBudget` in `utils/validators.ts`) and of the wire types declared in
the frontend type declarations.  The backend conversation engine is not part
of the source tree; where a claim depends on it, the operation is modelled
from the spec and its doc comment says so.

Conventions: JavaScript strings are `String`; JavaScript numbers are `ℤ`
(the validator and the retrieval filter use only order comparisons and
linear arithmetic, on which the integers are a faithful fragment of the
doubles the UI produces); `undefined`/missing optional fields are `Option`;
a caught exception is an `Option`-valued result; the `async` call structure
is sequentialised, each network round-trip becoming an explicit outcome
argument (the response on success, `none` on failure).
-/

namespace SalesMate

/-- `Conversation` record, from the frontend type declarations. -/
structure Conversation where
  id : String
  user_id : String
  status : String
  stage : String
  products_discussed : List String
  started_at : String
  ended_at : Option String
  last_activity_at : String
  message_count : Nat
deriving DecidableEq, Repr

/-- `Message` record, from the frontend type declarations.  The untyped
`metadata` map is only ever read or written at its `products` key by the
chat client, so it is embedded as that one slot. -/
structure Message where
  id : String
  conversation_id : String
  role : String
  content : String
  intent : Option String
  products : List String
  created_at : String
deriving DecidableEq, Repr

/-- `SendMessageResponse` record, from the frontend type declarations:
the payload of a successful `POST /chat/message`. -/
structure SendMessageResponse where
  conversation_id : String
  user_message : Message
  assistant_message : Message
  products : List String
  intent : String
  stage : String
deriving DecidableEq, Repr

/-- `StartConversationResponse` record, from the frontend type declarations. -/
structure StartConversationResponse where
  conversation : Conversation
  messages : List Message
  products_discussed : List String
deriving DecidableEq, Repr

/-- One parsed SSE event (`StreamChunk` in the frontend type declarations):
a `type` tag plus the optional payload fields the consumer inspects. -/
structure StreamChunk where
  type : String
  content : Option String := none
  product : Option String := none
  error : Option String := none
deriving DecidableEq, Repr

/-! ## `validateBudget` (utils/validators.ts) -/

/-- Result record of `validateBudget`. -/
structure BudgetValidation where
  isValid : Bool
  error : Option String := none
deriving DecidableEq, Repr

/-- `validateBudget` from `utils/validators.ts`, clause for clause. -/
def validateBudget (mn mx : ℤ) : BudgetValidation :=
  if mn < 0 ∨ mx < 0 then
    { isValid := false, error := some "Budget cannot be negative" }
  else if mn > mx then
    { isValid := false, error := some "Minimum budget cannot exceed maximum" }
  else if mx - mn < 100 then
    { isValid := false, error := some "Budget range must be at least $100" }
  else
    { isValid := true }

/-! ## SSE consumer (`chatAPI.streamMessage` in api/chat.ts)

The read loop splits each received text block into lines, keeps only lines
carrying the `data: ` marker, parses the remainder as JSON inside a
`try`/`catch` that swallows parse failures, and dispatches one callback per
recognised event.  JavaScript truthiness on the optional string payloads
(`data.content`, `data.error`) means "present and non-empty"; on the
`data.product` object it means "present". -/

/-- JavaScript truthiness of an optional string field. -/
def truthyStr : Option String → Bool
  | none => false
  | some s => if s = "" then false else true

/-- The four callbacks `chatAPI.streamMessage` can invoke (all four are
supplied by the caller in the chat provider). -/
inductive Callback where
  | onChunk (content : String)
  | onProduct (product : String)
  | onError (error : String)
  | onComplete
deriving DecidableEq, Repr

/-- Dispatch of one parsed event, following the guard chain of the consumer
(`chunk`, then `product`, then `complete`, then `error`; anything else is
ignored). -/
def dispatchEvent (d : StreamChunk) : List Callback :=
  if d.type = "chunk" ∧ truthyStr d.content then
    [Callback.onChunk (d.content.getD "")]
  else if d.type = "product" ∧ d.product.isSome then
    [Callback.onProduct (d.product.getD "")]
  else if d.type = "complete" then
    [Callback.onComplete]
  else if d.type = "error" ∧ truthyStr d.error then
    [Callback.onError (d.error.getD "")]
  else
    []

/-- The consumer's event loop: every received event is dispatched, in
delivery order; the loop itself never stops early. -/
def dispatchEvents : List StreamChunk → List Callback
  | [] => []
  | d :: ds => dispatchEvent d ++ dispatchEvents ds

/-- One line of the SSE read loop.  `JSON.parse` is a platform primitive,
so it enters the embedding as the abstract parameter `jparse`; the
`try`/`catch` around it makes its result an `Option`, and a failed parse
contributes no callback. -/
def processLine (jparse : String → Option StreamChunk) (line : String) :
    List Callback :=
  if line.startsWith "data: " then
    match jparse (line.drop 6) with
    | some d => dispatchEvent d
    | none => []
  else
    []

/-- The line loop of `chatAPI.streamMessage`. -/
def processLines (jparse : String → Option StreamChunk) :
    List String → List Callback
  | [] => []
  | l :: ls => processLine jparse l ++ processLines jparse ls

/-! ## Client chat state (`ChatProvider` in the chat context module) -/

/-- The provider's React state. -/
structure ChatState where
  currentConversation : Option Conversation
  messages : List Message
  isStreaming : Bool
  isLoading : Bool
deriving DecidableEq, Repr

/-- The chat requests the provider issues, in issue order. -/
inductive ApiCall where
  | closeConv (conversationId : String)
  | startConv
deriving DecidableEq, Repr

/-- The state both branches of `closeConversation` install. -/
def clearedChatState : ChatState :=
  { currentConversation := none, messages := [], isStreaming := false,
    isLoading := false }

/-- `ChatProvider.closeConversation`: with no current conversation it
returns at once; otherwise it issues `POST /chat/{id}/close` and installs
the cleared state — the `catch` branch installs the same cleared state, so
success and failure of the round-trip coincide in the model.  Result: new
state plus the requests issued. -/
def closeConversation (s : ChatState) : ChatState × List ApiCall :=
  match s.currentConversation with
  | none => (s, [])
  | some c => (clearedChatState, [ApiCall.closeConv c.id])

/-- `ChatProvider.startConversation`, success path: first awaits
`closeConversation` (a no-op when no conversation is current), then issues
`POST /chat/start` and installs the response. -/
def startConversation (s : ChatState) (resp : StartConversationResponse) :
    ChatState × List ApiCall :=
  let closed := closeConversation s
  ({ currentConversation := some resp.conversation,
     messages := resp.messages, isStreaming := false, isLoading := false },
   closed.2 ++ [ApiCall.startConv])

/-- The optimistic user message `sendMessage` appends (`temp-${Date.now()}`;
the clock reading is the `now` argument). -/
def sendUserMessage (convId message now : String) : Message :=
  { id := "temp-" ++ now, conversation_id := convId, role := "user",
    content := message, intent := none, products := [], created_at := now }

/-- `ChatProvider.sendMessage`.  With no current conversation it throws
before touching state.  Otherwise it appends the optimistic user message,
sets `isLoading`, and then either installs the response (success) or strips
the optimistic message back out and rethrows (failure, `outcome = none`). -/
def sendMessage (s : ChatState) (message now : String)
    (outcome : Option SendMessageResponse) : ChatState :=
  match s.currentConversation with
  | none => s
  | some conv =>
    let u := sendUserMessage conv.id message now
    let pending : ChatState :=
      { s with messages := s.messages ++ [u], isLoading := true }
    match outcome with
    | some resp =>
      { pending with
        messages := pending.messages.filter (fun m => m.id != u.id)
          ++ [resp.user_message, resp.assistant_message],
        isLoading := false }
    | none =>
      { pending with
        messages := pending.messages.filter (fun m => m.id != u.id),
        isLoading := false }

/-- The optimistic user message `streamMessage` appends
(`temp-user-${Date.now()}`). -/
def streamUserMessage (convId message now : String) : Message :=
  { id := "temp-user-" ++ now, conversation_id := convId, role := "user",
    content := message, intent := none, products := [], created_at := now }

/-- The placeholder assistant message `streamMessage` appends
(`temp-assistant-${Date.now()}`, empty content, empty product list). -/
def streamAssistantMessage (convId now : String) : Message :=
  { id := "temp-assistant-" ++ now, conversation_id := convId,
    role := "assistant", content := "", intent := none, products := [],
    created_at := now }

/-- Per-message effect of one callback closure of `streamMessage`: the
`onChunk` closure appends the fragment to the placeholder's content, the
`onProduct` closure appends to its product list, and the terminal closures
leave every message untouched. -/
def applyToMessage (aid : String) (cb : Callback) (m : Message) : Message :=
  match cb with
  | Callback.onChunk c =>
    if m.id = aid then { m with content := m.content ++ c } else m
  | Callback.onProduct p =>
    if m.id = aid then { m with products := m.products ++ [p] } else m
  | Callback.onError _ => m
  | Callback.onComplete => m

/-- Effect of one callback on the provider state: `onChunk`/`onProduct` map
the per-message update over the message list; `onError` and `onComplete`
only clear `isStreaming`. -/
def applyCallback (aid : String) (s : ChatState) (cb : Callback) : ChatState :=
  match cb with
  | Callback.onChunk c =>
    { s with messages :=
        s.messages.map (fun m => applyToMessage aid (Callback.onChunk c) m) }
  | Callback.onProduct p =>
    { s with messages :=
        s.messages.map (fun m => applyToMessage aid (Callback.onProduct p) m) }
  | Callback.onError _ => { s with isStreaming := false }
  | Callback.onComplete => { s with isStreaming := false }

/-- Sequential application of the dispatched callbacks to the provider
state. -/
def applyCallbacks (aid : String) (s : ChatState) (cbs : List Callback) :
    ChatState :=
  cbs.foldl (applyCallback aid) s

/-- `ChatProvider.streamMessage`, path on which the HTTP round-trip itself
succeeds and the stream delivers `events`: with no current conversation it
throws before touching state; otherwise it appends the optimistic user
message and the assistant placeholder, raises `isStreaming`, and lets the
consumer's dispatched callbacks act on the state. -/
def streamMessage (s : ChatState) (message now : String)
    (events : List StreamChunk) : ChatState :=
  match s.currentConversation with
  | none => s
  | some conv =>
    let u := streamUserMessage conv.id message now
    let a := streamAssistantMessage conv.id now
    let s₁ : ChatState :=
      { s with messages := s.messages ++ [u, a], isStreaming := true }
    applyCallbacks a.id s₁ (dispatchEvents events)

/-- Observation: the contents of the messages carrying a given id. -/
def assistantContents (aid : String) (s : ChatState) : List String :=
  (s.messages.filter (fun m => m.id == aid)).map Message.content

/-- Text a single callback contributes to the placeholder's content. -/
def chunkText : Callback → String
  | Callback.onChunk c => c
  | _ => ""

/-- Concatenated text of a callback sequence, in order. -/
def chunkConcat : List Callback → String
  | [] => ""
  | cb :: cbs => chunkText cb ++ chunkConcat cbs

/-- The content payload of one stream event (`""` for anything that is not
a chunk event, and for a chunk event with an absent payload). -/
def eventChunkText (d : StreamChunk) : String :=
  if d.type = "chunk" then d.content.getD "" else ""

/-- Concatenation, in delivery order, of the content payloads of the chunk
events of a stream. -/
def concatChunks : List StreamChunk → String
  | [] => ""
  | d :: ds => eventChunkText d ++ concatChunks ds

/-! ## Spec-modelled backend operations -/

/-- Modelled from the spec: the backend `end`/close operation
(`POST /chat/{id}/close`); its FastAPI handler is not under `src/`.
Spec §4.1: "`end(conversationId)`: idempotent; marks `status=ended`,
`stage=closed`, stamps `ended_at`." -/
def endConversation (c : Conversation) (now : String) : Conversation :=
  if c.status = "ended" then c
  else { c with status := "ended", stage := "closed", ended_at := some now }

/-- Modelled from the spec: a catalog item as the structured filter sees it
(§4.2, §6); the retrieval service is not under `src/`. -/
structure Product where
  id : String
  price : ℤ
  category : String
  brand : String
  in_stock : Bool
deriving DecidableEq, Repr

/-- Modelled from the spec: the structured filter arguments of
CatalogRetriever (§4.2: category, brand, price bounds, stock status). -/
structure RetrievalFilter where
  category : Option String
  brand : Option String
  priceMin : ℤ
  priceMax : ℤ
deriving DecidableEq, Repr

/-- Modelled from the spec: whether a catalog item passes the structured
filter (exact category/brand match where requested, hard price bounds,
in-stock only). -/
def matchesFilter (f : RetrievalFilter) (p : Product) : Bool :=
  (match f.category with | none => true | some c => p.category == c)
    && (match f.brand with | none => true | some b => p.brand == b)
    && decide (f.priceMin ≤ p.price)
    && decide (p.price ≤ f.priceMax)
    && p.in_stock

/-- Modelled from the spec: the structured filter query of
CatalogRetriever. -/
def structuredQuery (catalog : List Product) (f : RetrievalFilter) :
    List Product :=
  catalog.filter (matchesFilter f)

/-- Modelled from the spec: "widen price bounds by 20%" (§4.2) — the lower
bound drops by a fifth, the upper bound grows by a fifth. -/
def widenPrice (f : RetrievalFilter) : RetrievalFilter :=
  { f with priceMin := f.priceMin * 4 / 5, priceMax := f.priceMax * 6 / 5 }

/-- Modelled from the spec (§4.2): run the structured filter; on zero
results widen the price bounds by 20% exactly once and retry; an empty
result set is returned as a value, not an error. -/
def retrieveStructured (catalog : List Product) (f : RetrievalFilter) :
    List Product :=
  let r := structuredQuery catalog f
  if r.isEmpty then structuredQuery catalog (widenPrice f) else r

/-! ## Sample values used by witnesses and counterexamples -/

/-- A conversation in its freshly started state. -/
def sampleConversation : Conversation :=
  { id := "c1", user_id := "u1", status := "active", stage := "greeting",
    products_discussed := [], started_at := "0", ended_at := none,
    last_activity_at := "0", message_count := 0 }

/-- A second conversation, as returned by a later `POST /chat/start`. -/
def sampleConversation' : Conversation :=
  { id := "c2", user_id := "u1", status := "active", stage := "greeting",
    products_discussed := [], started_at := "5", ended_at := none,
    last_activity_at := "5", message_count := 0 }

/-- Provider state holding an active conversation and no messages. -/
def sampleState : ChatState :=
  { currentConversation := some sampleConversation, messages := [],
    isStreaming := false, isLoading := false }

/-- A `POST /chat/start` response delivering the second conversation. -/
def sampleStartResponse : StartConversationResponse :=
  { conversation := sampleConversation', messages := [],
    products_discussed := [] }

/-- A chunk event carrying the fragment `"Hel"`. -/
def sampleChunkEvent : StreamChunk := { type := "chunk", content := some "Hel" }

/-- A terminal complete event. -/
def sampleCompleteEvent : StreamChunk := { type := "complete" }

/-- A terminal error event carrying a message. -/
def sampleErrorEvent : StreamChunk := { type := "error", error := some "boom" }

/-- A two-chunk stream body (`"Hel"` then `"lo"`). -/
def sampleStream : List StreamChunk :=
  [sampleChunkEvent, { type := "chunk", content := some "lo" }]

/-- A catalog item priced just above the sample filter's upper bound. -/
def sampleProduct : Product :=
  { id := "p1", price := 110, category := "laptops", brand := "acme",
    in_stock := true }

/-- A price filter on `[50, 100]` with no category or brand restriction. -/
def sampleFilter : RetrievalFilter :=
  { category := none, brand := none, priceMin := 50, priceMax := 100 }

/-- Cumulative per-message effect of a callback sequence (proof-side
decomposition of `applyCallbacks`). -/
def applyAll (aid : String) (cbs : List Callback) (m : Message) : Message :=
  cbs.foldl (fun m cb => applyToMessage aid cb m) m

/-! ## Helper lemmas -/

theorem dispatchEvents_append (xs ys : List StreamChunk) :
    dispatchEvents (xs ++ ys) = dispatchEvents xs ++ dispatchEvents ys := by
  induction xs with
  | nil => rfl
  | cons x xs ih => simp [dispatchEvents, ih]

theorem chunkConcat_append (xs ys : List Callback) :
    chunkConcat (xs ++ ys) = chunkConcat xs ++ chunkConcat ys := by
  induction xs with
  | nil => simp [chunkConcat]
  | cons x xs ih => simp [chunkConcat, ih, String.append_assoc]

theorem concatChunks_append (xs ys : List StreamChunk) :
    concatChunks (xs ++ ys) = concatChunks xs ++ concatChunks ys := by
  induction xs with
  | nil => simp [concatChunks]
  | cons x xs ih => simp [concatChunks, ih, String.append_assoc]

theorem chunkConcat_dispatchEvent (d : StreamChunk) :
    chunkConcat (dispatchEvent d) = eventChunkText d := by
  by_cases hc : d.type = "chunk"
  · by_cases ht : truthyStr d.content
    · simp [dispatchEvent, eventChunkText, hc, ht, chunkConcat, chunkText]
    · cases hcon : d.content with
      | none =>
        simp [dispatchEvent, eventChunkText, hc, ht, hcon, chunkConcat]
      | some s =>
        have hs : s = "" := by
          by_contra hne
          exact ht (by simp [truthyStr, hcon, hne])
        simp [dispatchEvent, eventChunkText, hc, ht, hcon, hs, chunkConcat]
  · simp only [dispatchEvent, eventChunkText]
    rw [if_neg (fun hand => hc hand.1), if_neg hc]
    split_ifs <;> simp [chunkConcat, chunkText]

theorem chunkConcat_dispatchEvents (es : List StreamChunk) :
    chunkConcat (dispatchEvents es) = concatChunks es := by
  induction es with
  | nil => rfl
  | cons e es ih =>
    simp [dispatchEvents, concatChunks, chunkConcat_append,
      chunkConcat_dispatchEvent, ih]

theorem dispatchEvent_complete (d : StreamChunk) (h : d.type = "complete") :
    dispatchEvent d = [Callback.onComplete] := by
  simp [dispatchEvent, h]

theorem applyCallback_messages (aid : String) (s : ChatState) (cb : Callback) :
    (applyCallback aid s cb).messages = s.messages.map (applyToMessage aid cb) := by
  cases cb with
  | onChunk c => rfl
  | onProduct p => rfl
  | onError e =>
    show s.messages = _
    rw [show applyToMessage aid (Callback.onError e) = id from funext fun m => rfl,
      List.map_id]
  | onComplete =>
    show s.messages = _
    rw [show applyToMessage aid Callback.onComplete = id from funext fun m => rfl,
      List.map_id]

theorem applyCallbacks_messages (aid : String) (cbs : List Callback)
    (s : ChatState) :
    (applyCallbacks aid s cbs).messages = s.messages.map (applyAll aid cbs) := by
  induction cbs generalizing s with
  | nil =>
    show s.messages = _
    rw [show applyAll aid [] = id from funext fun m => rfl, List.map_id]
  | cons cb cbs ih =>
    show (applyCallbacks aid (applyCallback aid s cb) cbs).messages = _
    rw [ih, applyCallback_messages, List.map_map]
    rfl

theorem applyToMessage_id (aid : String) (cb : Callback) (m : Message) :
    (applyToMessage aid cb m).id = m.id := by
  cases cb with
  | onChunk c => by_cases h : m.id = aid <;> simp [applyToMessage, h]
  | onProduct p => by_cases h : m.id = aid <;> simp [applyToMessage, h]
  | onError e => rfl
  | onComplete => rfl

theorem applyAll_id (aid : String) (cbs : List Callback) (m : Message) :
    (applyAll aid cbs m).id = m.id := by
  induction cbs generalizing m with
  | nil => rfl
  | cons cb cbs ih =>
    show (applyAll aid cbs (applyToMessage aid cb m)).id = m.id
    rw [ih, applyToMessage_id]

theorem applyAll_content (aid : String) (cbs : List Callback) (m : Message)
    (h : m.id = aid) :
    (applyAll aid cbs m).content = m.content ++ chunkConcat cbs := by
  induction cbs generalizing m with
  | nil => simp [applyAll, chunkConcat]
  | cons cb cbs ih =>
    have h' : (applyToMessage aid cb m).id = aid := by
      rw [applyToMessage_id]; exact h
    show (applyAll aid cbs (applyToMessage aid cb m)).content = _
    rw [ih _ h']
    cases cb with
    | onChunk c =>
      simp [applyToMessage, h, chunkConcat, chunkText, String.append_assoc]
    | onProduct p => simp [applyToMessage, h, chunkConcat, chunkText]
    | onError e => simp [applyToMessage, chunkConcat, chunkText]
    | onComplete => simp [applyToMessage, chunkConcat, chunkText]

theorem streamUserId_ne_assistantId (now : String) :
    ("temp-user-" ++ now) ≠ ("temp-assistant-" ++ now) := by
  intro h
  have hl := congrArg String.length h
  simp [String.length_append] at hl
  exact absurd hl (by decide)

theorem applyCallbacks_append_onComplete (aid : String) (s : ChatState)
    (cbs : List Callback) :
    applyCallbacks aid s (cbs ++ [Callback.onComplete])
      = { applyCallbacks aid s cbs with isStreaming := false } := by
  unfold applyCallbacks
  rw [List.foldl_append]
  rfl

theorem applyCallbacks_append_onError (aid : String) (s : ChatState)
    (cbs : List Callback) (err : String) :
    applyCallbacks aid s (cbs ++ [Callback.onError err])
      = { applyCallbacks aid s cbs with isStreaming := false } := by
  unfold applyCallbacks
  rw [List.foldl_append]
  rfl

theorem streamMessage_eq (s : ChatState) (conv : Conversation)
    (message now : String) (events : List StreamChunk)
    (hconv : s.currentConversation = some conv) :
    streamMessage s message now events
      = applyCallbacks ("temp-assistant-" ++ now)
          { s with
            messages := s.messages
              ++ [streamUserMessage conv.id message now,
                  streamAssistantMessage conv.id now],
            isStreaming := true }
          (dispatchEvents events) := by
  simp only [streamMessage, hconv]
  rfl

theorem streamMessage_assistant_contents (s : ChatState) (conv : Conversation)
    (message now : String) (events : List StreamChunk)
    (hconv : s.currentConversation = some conv)
    (hfresh : ∀ m ∈ s.messages, m.id ≠ "temp-assistant-" ++ now) :
    assistantContents ("temp-assistant-" ++ now)
        (streamMessage s message now events)
      = [concatChunks events] := by
  rw [streamMessage_eq s conv message now events hconv]
  unfold assistantContents
  rw [applyCallbacks_messages]
  show ((((s.messages
        ++ [streamUserMessage conv.id message now,
            streamAssistantMessage conv.id now]).map
          (applyAll ("temp-assistant-" ++ now) (dispatchEvents events))).filter
        (fun m => m.id == "temp-assistant-" ++ now)).map Message.content) = _
  rw [List.map_append, List.filter_append]
  have h1 : ((s.messages.map
      (applyAll ("temp-assistant-" ++ now) (dispatchEvents events))).filter
        (fun m => m.id == "temp-assistant-" ++ now)) = [] := by
    rw [List.filter_eq_nil_iff]
    intro x hx
    obtain ⟨m, hm, rfl⟩ := List.mem_map.1 hx
    simp only [applyAll_id, beq_iff_eq]
    exact hfresh m hm
  have hu : (((applyAll ("temp-assistant-" ++ now) (dispatchEvents events)
      (streamUserMessage conv.id message now)).id
        == "temp-assistant-" ++ now)) = false := by
    rw [applyAll_id]
    exact beq_eq_false_iff_ne.mpr (streamUserId_ne_assistantId now)
  have ha : (((applyAll ("temp-assistant-" ++ now) (dispatchEvents events)
      (streamAssistantMessage conv.id now)).id
        == "temp-assistant-" ++ now)) = true := by
    rw [applyAll_id]
    exact beq_iff_eq.mpr rfl
  simp only [List.map_cons, List.map_nil, List.filter_cons, List.filter_nil,
    hu, ha, if_pos, if_neg, Bool.false_eq_true, not_false_eq_true, h1,
    List.nil_append]
  rw [applyAll_content ("temp-assistant-" ++ now) (dispatchEvents events)
    (streamAssistantMessage conv.id now) rfl]
  rw [chunkConcat_dispatchEvents]
  show [(streamAssistantMessage conv.id now).content ++ concatChunks events] = _
  simp [streamAssistantMessage]

/-! ## Claims -/

/-- C10: for all numbers `mn` and `mx`, `validateBudget mn mx` returns
`isValid = true` if and only if `mn ≥ 0`, `mx ≥ 0`, `mn ≤ mx` and
`mx - mn ≥ 100`; in every other case it returns `isValid = false` together
with a non-empty error string. -/
theorem validateBudget_spec (mn mx : ℤ) :
    ((validateBudget mn mx).isValid = true ↔
      0 ≤ mn ∧ 0 ≤ mx ∧ mn ≤ mx ∧ 100 ≤ mx - mn)
    ∧ ((validateBudget mn mx).isValid = false →
        ∃ e, (validateBudget mn mx).error = some e ∧ e ≠ "") := by
  unfold validateBudget
  split_ifs with h1 h2 h3
  · exact ⟨by simp; omega, fun _ => ⟨"Budget cannot be negative", rfl, by decide⟩⟩
  · exact ⟨by simp; omega,
      fun _ => ⟨"Minimum budget cannot exceed maximum", rfl, by decide⟩⟩
  · exact ⟨by simp; omega,
      fun _ => ⟨"Budget range must be at least $100", rfl, by decide⟩⟩
  · exact ⟨by simp; omega, fun hfalse => absurd hfalse (by simp)⟩

/-- Witness for C10: at `(0, 50)` the range is narrower than 100, so the
validator rejects with a non-empty error string. -/
theorem validateBudget_spec_witness :
    (validateBudget 0 50).isValid = false
    ∧ ∃ e, (validateBudget 0 50).error = some e ∧ e ≠ "" :=
  ⟨by decide, (validateBudget_spec 0 50).2 (by decide)⟩

/-- C7: a successful synchronous message response consists of exactly the
conversation identifier, the persisted user message, the persisted
assistant message, the products list, the extracted intent and the current
stage: two `SendMessageResponse` values are equal precisely when those six
components agree, so the response type carries those six fields and nothing
else. -/
theorem sendMessageResponse_fields (r₁ r₂ : SendMessageResponse) :
    r₁ = r₂ ↔
      r₁.conversation_id = r₂.conversation_id
      ∧ r₁.user_message = r₂.user_message
      ∧ r₁.assistant_message = r₂.assistant_message
      ∧ r₁.products = r₂.products
      ∧ r₁.intent = r₂.intent
      ∧ r₁.stage = r₂.stage := by
  cases r₁
  cases r₂
  simp

/-- C9: the SSE line loop dispatches exactly the events of the lines that
carry the `data: ` marker and parse; a line whose remainder fails to parse,
or a line without the marker, contributes nothing and processing of the
remaining lines continues — for any behaviour `jparse` of the JSON parser,
the loop equals dispatching the successfully parsed `data: ` lines, so a
bad line never aborts the stream. -/
theorem processLines_skips_bad_lines (jparse : String → Option StreamChunk)
    (ls : List String) :
    processLines jparse ls
      = dispatchEvents (ls.filterMap (fun l =>
          if l.startsWith "data: " then jparse (l.drop 6) else none)) := by
  induction ls with
  | nil => rfl
  | cons l ls ih =>
    show processLine jparse l ++ processLines jparse ls = _
    rw [List.filterMap_cons]
    by_cases hp : l.startsWith "data: "
    · unfold processLine
      rw [if_pos hp, if_pos hp]
      cases hj : jparse (l.drop 6) with
      | some d =>
        show dispatchEvent d ++ _ = _
        rw [ih]
        rfl
      | none =>
        show [] ++ _ = _
        rw [List.nil_append, ih]
    · unfold processLine
      rw [if_neg hp, if_neg hp, List.nil_append, ih]

/-- C1: starting a conversation while one is active first issues the close
request (`POST /chat/{id}/close`) for the prior conversation and only
afterwards the start request, and the new conversation replaces the prior
one — the client never holds two active conversations, so at most one
conversation per user is active at any time. -/
theorem startConversation_closes_prior (s : ChatState)
    (resp : StartConversationResponse) (c : Conversation)
    (h : s.currentConversation = some c) :
    (startConversation s resp).2 = [ApiCall.closeConv c.id, ApiCall.startConv]
    ∧ (startConversation s resp).1.currentConversation
        = some resp.conversation := by
  simp [startConversation, closeConversation, h]

/-- Witness for C1: a state holding an active conversation; starting a new
one emits the close request for `c1` before the start request. -/
theorem startConversation_closes_prior_witness :
    sampleState.currentConversation = some sampleConversation
    ∧ ((startConversation sampleState sampleStartResponse).2
        = [ApiCall.closeConv sampleConversation.id, ApiCall.startConv]
       ∧ (startConversation sampleState sampleStartResponse).1.currentConversation
        = some sampleStartResponse.conversation) :=
  ⟨rfl, startConversation_closes_prior sampleState sampleStartResponse
    sampleConversation rfl⟩

/-- C6: ending a conversation is idempotent — the second `end` call returns
the same terminal conversation (`status = ended`, `stage = closed`,
`ended_at` stamped) without error, and on the client the first close clears
the chat state while a second `closeConversation` call returns the same
cleared state, issues no request, and raises no error. -/
theorem endConversation_idempotent (c : Conversation) (s : ChatState)
    (t t' : String) (hc : c.status ≠ "ended")
    (hs : s.currentConversation = some c) :
    endConversation (endConversation c t) t' = endConversation c t
    ∧ (endConversation c t).status = "ended"
    ∧ (endConversation c t).stage = "closed"
    ∧ (endConversation c t).ended_at = some t
    ∧ (closeConversation s).1 = clearedChatState
    ∧ closeConversation (closeConversation s).1 = (clearedChatState, []) := by
  have h1 : endConversation c t =
      { c with status := "ended", stage := "closed", ended_at := some t } := by
    simp [endConversation, hc]
  refine ⟨?_, ?_, ?_, ?_, ?_, ?_⟩
  · rw [h1]; simp [endConversation]
  · rw [h1]
  · rw [h1]
  · rw [h1]
  · simp [closeConversation, hs]
  · have h2 : (closeConversation s).1 = clearedChatState := by
      simp [closeConversation, hs]
    rw [h2]
    rfl

/-- Witness for C6: ending the sample active conversation twice, and closing
the sample client state twice. -/
theorem endConversation_idempotent_witness :
    (sampleConversation.status ≠ "ended"
     ∧ sampleState.currentConversation = some sampleConversation)
    ∧ (endConversation (endConversation sampleConversation "3") "4"
          = endConversation sampleConversation "3"
       ∧ (endConversation sampleConversation "3").status = "ended"
       ∧ (endConversation sampleConversation "3").stage = "closed"
       ∧ (endConversation sampleConversation "3").ended_at = some "3"
       ∧ (closeConversation sampleState).1 = clearedChatState
       ∧ closeConversation (closeConversation sampleState).1
          = (clearedChatState, [])) :=
  ⟨⟨by decide, rfl⟩,
    endConversation_idempotent sampleConversation sampleState "3" "4"
      (by decide) rfl⟩

/-- C8: when the synchronous send fails, the provider restores the message
list to exactly its value before the call — the optimistically appended
temporary user message is stripped, no assistant message is added — and
`isLoading` is reset to `false`.  The freshness hypothesis says the
temporary id (a `temp-` clock id) does not collide with an existing
message. -/
theorem sendMessage_failure_rollback (s : ChatState) (conv : Conversation)
    (message now : String) (hconv : s.currentConversation = some conv)
    (hfresh : ∀ m ∈ s.messages, m.id ≠ "temp-" ++ now) :
    (sendMessage s message now none).messages = s.messages
    ∧ (sendMessage s message now none).isLoading = false := by
  simp only [sendMessage, hconv]
  refine ⟨?_, trivial⟩
  rw [List.filter_append]
  have hall : s.messages.filter
      (fun m => m.id != (sendUserMessage conv.id message now).id)
        = s.messages := by
    rw [List.filter_eq_self]
    intro m hm
    simp only [bne_iff_ne, ne_eq, decide_not]
    simpa using hfresh m hm
  have hu : [sendUserMessage conv.id message now].filter
      (fun m => m.id != (sendUserMessage conv.id message now).id) = [] := by
    simp
  rw [hall, hu, List.append_nil]

/-- Witness for C8: a failing send against the sample state leaves the
(empty) message list unchanged and `isLoading` low. -/
theorem sendMessage_failure_rollback_witness :
    (sampleState.currentConversation = some sampleConversation
     ∧ (∀ m ∈ sampleState.messages, m.id ≠ "temp-" ++ "9"))
    ∧ ((sendMessage sampleState "hello" "9" none).messages
          = sampleState.messages
       ∧ (sendMessage sampleState "hello" "9" none).isLoading = false) :=
  ⟨⟨rfl, by simp [sampleState]⟩,
    sendMessage_failure_rollback sampleState sampleConversation "hello" "9"
      rfl (by simp [sampleState])⟩

/-- C2: for a streamed turn that ends with a `complete` terminal event, the
final content of the assistant message equals the concatenation, in
delivery order, of the content payloads of the `chunk` events delivered on
the stream — no chunk is reordered or coalesced — and the terminal event
clears the streaming flag.  The freshness hypothesis says the placeholder's
clock id does not collide with an existing message. -/
theorem streamMessage_complete_concat (s : ChatState) (conv : Conversation)
    (message now : String) (es : List StreamChunk) (e : StreamChunk)
    (hconv : s.currentConversation = some conv)
    (hfresh : ∀ m ∈ s.messages, m.id ≠ "temp-assistant-" ++ now)
    (hterm : e.type = "complete") :
    assistantContents ("temp-assistant-" ++ now)
        (streamMessage s message now (es ++ [e]))
      = [concatChunks (es ++ [e])]
    ∧ (streamMessage s message now (es ++ [e])).isStreaming = false := by
  refine ⟨streamMessage_assistant_contents s conv message now (es ++ [e])
    hconv hfresh, ?_⟩
  rw [streamMessage_eq s conv message now (es ++ [e]) hconv]
  have hde : dispatchEvents (es ++ [e])
      = dispatchEvents es ++ [Callback.onComplete] := by
    rw [dispatchEvents_append]
    simp [dispatchEvents, dispatchEvent_complete e hterm]
  rw [hde, applyCallbacks_append_onComplete]

/-- Witness for C2: two chunks then `complete`; the placeholder carries the
concatenation of the two fragments and streaming is over. -/
theorem streamMessage_complete_concat_witness :
    (sampleState.currentConversation = some sampleConversation
     ∧ (∀ m ∈ sampleState.messages, m.id ≠ "temp-assistant-" ++ "7")
     ∧ sampleCompleteEvent.type = "complete")
    ∧ (assistantContents ("temp-assistant-" ++ "7")
          (streamMessage sampleState "hi" "7"
            (sampleStream ++ [sampleCompleteEvent]))
        = [concatChunks (sampleStream ++ [sampleCompleteEvent])]
       ∧ (streamMessage sampleState "hi" "7"
            (sampleStream ++ [sampleCompleteEvent])).isStreaming = false) :=
  ⟨⟨rfl, by simp [sampleState], rfl⟩,
    streamMessage_complete_concat sampleState sampleConversation "hi" "7"
      sampleStream sampleCompleteEvent rfl (by simp [sampleState]) rfl⟩

/-- Counterexample to C3 as stated: an `error`-terminated stream leaves the
client in literally the same state as a `complete`-terminated stream over
the same chunks, so the kept partial response is not distinguishable from a
complete reply — nothing in the client state records that the turn
errored. -/
theorem streamError_indistinguishable_counterexample :
    streamMessage sampleState "hi" "7" [sampleChunkEvent, sampleErrorEvent]
      = streamMessage sampleState "hi" "7"
          [sampleChunkEvent, sampleCompleteEvent] := by
  rfl

/-- C3 (amended): when the stream terminates with an `error` event after
chunks were delivered, the delivered chunks are kept as the assistant
message's content — partial output is not discarded — and the streaming
flag is cleared; however the resulting client state is identical to that of
a `complete`-terminated stream over the same chunks, so the partial reply
is not distinguishable from a complete one. -/
theorem streamMessage_error_keeps_partial (s : ChatState) (conv : Conversation)
    (message now : String) (es : List StreamChunk) (err : String)
    (hconv : s.currentConversation = some conv)
    (hfresh : ∀ m ∈ s.messages, m.id ≠ "temp-assistant-" ++ now)
    (herr : err ≠ "") :
    assistantContents ("temp-assistant-" ++ now)
        (streamMessage s message now
          (es ++ [{ type := "error", error := some err }]))
      = [concatChunks es]
    ∧ (streamMessage s message now
        (es ++ [{ type := "error", error := some err }])).isStreaming = false
    ∧ streamMessage s message now
        (es ++ [{ type := "error", error := some err }])
      = streamMessage s message now (es ++ [{ type := "complete" }]) := by
  have hev : dispatchEvent { type := "error", error := some err }
      = [Callback.onError err] := by
    simp [dispatchEvent, truthyStr, herr]
  have hstream : dispatchEvents (es ++ [{ type := "error", error := some err }])
      = dispatchEvents es ++ [Callback.onError err] := by
    rw [dispatchEvents_append]
    simp [dispatchEvents, hev]
  have hconcat : concatChunks (es ++ [{ type := "error", error := some err }])
      = concatChunks es := by
    rw [concatChunks_append]
    simp [concatChunks, eventChunkText]
  refine ⟨?_, ?_, ?_⟩
  · rw [streamMessage_assistant_contents s conv message now _ hconv hfresh,
      hconcat]
  · rw [streamMessage_eq s conv message now _ hconv, hstream,
      applyCallbacks_append_onError]
  · rw [streamMessage_eq s conv message now _ hconv,
      streamMessage_eq s conv message now _ hconv, hstream,
      applyCallbacks_append_onError]
    have hc2 : dispatchEvents (es ++ [({ type := "complete" } : StreamChunk)])
        = dispatchEvents es ++ [Callback.onComplete] := by
      rw [dispatchEvents_append]
      simp [dispatchEvents, dispatchEvent]
    rw [hc2, applyCallbacks_append_onComplete]

/-- Witness for C3 (amended): one chunk then an error event; the chunk text
is kept and the state equals the complete-terminated run. -/
theorem streamMessage_error_keeps_partial_witness :
    (sampleState.currentConversation = some sampleConversation
     ∧ (∀ m ∈ sampleState.messages, m.id ≠ "temp-assistant-" ++ "7")
     ∧ ("boom" : String) ≠ "")
    ∧ (assistantContents ("temp-assistant-" ++ "7")
          (streamMessage sampleState "hi" "7"
            ([sampleChunkEvent] ++ [{ type := "error", error := some "boom" }]))
        = [concatChunks [sampleChunkEvent]]
       ∧ (streamMessage sampleState "hi" "7"
            ([sampleChunkEvent]
              ++ [{ type := "error", error := some "boom" }])).isStreaming
          = false
       ∧ streamMessage sampleState "hi" "7"
            ([sampleChunkEvent] ++ [{ type := "error", error := some "boom" }])
          = streamMessage sampleState "hi" "7"
              ([sampleChunkEvent] ++ [{ type := "complete" }])) :=
  ⟨⟨rfl, by simp [sampleState], by decide⟩,
    streamMessage_error_keeps_partial sampleState sampleConversation "hi" "7"
      [sampleChunkEvent] "boom" rfl (by simp [sampleState]) (by decide)⟩

/-- Counterexample to C4 as stated: the consumer does not stop at a
terminal event — after dispatching `onComplete` for the terminal event it
still dispatches `onChunk "Hel"` for a following chunk event, so events
arriving after the terminal event are processed, not dropped. -/
theorem dispatch_after_terminal_counterexample :
    dispatchEvents [sampleCompleteEvent, sampleChunkEvent]
      = [Callback.onComplete, Callback.onChunk "Hel"] := by
  rfl

/-- C4 (amended): the consumer dispatches a callback for every recognised
event in the stream regardless of any terminal event seen earlier — after a
terminal `complete` or `error` event, following events are still
dispatched; closing the stream right after the terminal event is the
server's responsibility, not enforced by the consumer. -/
theorem dispatch_continues_after_terminal (es fs : List StreamChunk)
    (e : StreamChunk) (_hterm : e.type = "complete" ∨ e.type = "error") :
    dispatchEvents (es ++ e :: fs)
      = dispatchEvents es ++ (dispatchEvent e ++ dispatchEvents fs) := by
  rw [dispatchEvents_append]
  rfl

/-- Witness for C4 (amended): a chunk event following the terminal
`complete` event is still dispatched. -/
theorem dispatch_continues_after_terminal_witness :
    (sampleCompleteEvent.type = "complete" ∨ sampleCompleteEvent.type = "error")
    ∧ dispatchEvents ([] ++ sampleCompleteEvent :: [sampleChunkEvent])
        = dispatchEvents []
          ++ (dispatchEvent sampleCompleteEvent
              ++ dispatchEvents [sampleChunkEvent]) :=
  ⟨Or.inl rfl,
    dispatch_continues_after_terminal [] [sampleChunkEvent]
      sampleCompleteEvent (Or.inl rfl)⟩

/-- C5 (spec-modelled): every candidate returned by the structured
retrieval lies within the requested hard price bounds, unless the first
pass returned zero results, in which case the bounds widened by 20% were
used and every candidate respects the widened bounds instead; an empty
result set is returned as a plain value, not an error. -/
theorem retrieveStructured_respects_bounds (catalog : List Product)
    (f : RetrievalFilter) (p : Product)
    (hp : p ∈ retrieveStructured catalog f) :
    (f.priceMin ≤ p.price ∧ p.price ≤ f.priceMax)
    ∨ (structuredQuery catalog f = []
       ∧ (widenPrice f).priceMin ≤ p.price
       ∧ p.price ≤ (widenPrice f).priceMax) := by
  have hbounds : ∀ g : RetrievalFilter, p ∈ structuredQuery catalog g →
      g.priceMin ≤ p.price ∧ p.price ≤ g.priceMax := by
    intro g hg
    have hm := (List.mem_filter.mp hg).2
    simp only [matchesFilter, Bool.and_eq_true, decide_eq_true_eq] at hm
    exact ⟨hm.1.1.2, hm.1.2⟩
  simp only [retrieveStructured] at hp
  by_cases hempty : (structuredQuery catalog f).isEmpty
  · rw [if_pos hempty] at hp
    exact Or.inr ⟨List.isEmpty_iff.mp hempty, (hbounds _ hp).1, (hbounds _ hp).2⟩
  · rw [if_neg hempty] at hp
    exact Or.inl (hbounds _ hp)

/-- Witness for C5: a one-item catalog priced at 110 against the `[50,100]`
filter — the first pass is empty, the widened bounds `[40,120]` admit the
item. -/
theorem retrieveStructured_respects_bounds_witness :
    sampleProduct ∈ retrieveStructured [sampleProduct] sampleFilter
    ∧ ((sampleFilter.priceMin ≤ sampleProduct.price
        ∧ sampleProduct.price ≤ sampleFilter.priceMax)
       ∨ (structuredQuery [sampleProduct] sampleFilter = []
          ∧ (widenPrice sampleFilter).priceMin ≤ sampleProduct.price
          ∧ sampleProduct.price ≤ (widenPrice sampleFilter).priceMax)) :=
  ⟨by decide,
    retrieveStructured_respects_bounds [sampleProduct] sampleFilter
      sampleProduct (by decide)⟩

end SalesMate
